import Mathlib

/-!
Shallow embedding of `src/modules/auth/auth.service.ts` of the
Sustain-API/sustainapi-fastapi repository (a NestJS `AuthService`), together
with proofs of the specification's claims about it.

Modelling conventions:
* The TypeORM repository of `User` rows is a `List User`; `findOne {where: {email}}`
  is `findOne` below, `save` appends the created row (assigning `id` and the
  creation/update timestamps from the ambient clock `now : Nat`).
* `bcrypt.hash` / `bcrypt.compare` are third-party library calls; the service is
  parameterised over them (`bhash : String → Nat → String`,
  `bcompare : String → String → Bool`), mirroring the dependency injection of
  the NestJS service.
* `Date` values are `Nat` timestamps; `jwtService.sign` with an `expiresIn`
  option produces a decoded token record carrying the claims and expiry.
* NestJS exceptions `BadRequestException` / `UnauthorizedException` become the
  constructors of `NestException`; a `throw` becomes `Except.error`.
* Every operation that can touch the store returns the (possibly updated)
  store, so frame properties ("no write is performed") are provable.
-/

set_option autoImplicit false

namespace SustainAuth

/-- NestJS exception classes thrown by `auth.service.ts`:
`BadRequestException` (validation) and `UnauthorizedException` (authorization). -/
inductive NestException where
  | badRequest (message : String)
  | unauthorized (message : String)
deriving Repr, DecidableEq

/-- The `User` entity as used by `auth.service.ts` (the entity file itself is not
among the sources; the fields are the ones the service reads and writes, plus the
last-login timestamp the spec's data model lists). Timestamps are `Nat`;
`wallet_address` is nullable; `last_login_at` is nullable (never set by the
service). -/
structure User where
  id : Nat
  email : String
  password : String
  full_name : String
  wallet_address : Option String
  token_balance : Nat
  is_active : Bool
  is_verified : Bool
  created_at : Nat
  updated_at : Nat
  last_login_at : Option Nat
deriving Repr, DecidableEq

/-- `RegisterUserDto`: the body destructured at the top of `register`
(`email, password, full_name, wallet_address`). -/
structure RegisterUserDto where
  email : String
  password : String
  full_name : String
  wallet_address : Option String
deriving Repr, DecidableEq

/-- `userRepository.findOne({ where: { email } })`: first stored user with the
given email, if any. -/
def findOne (users : List User) (email : String) : Option User :=
  users.find? (fun u => u.email == email)

/-- `INITIAL_TOKEN_ALLOCATION = 1000` (auth.service.ts line 13, "hardcoded for
end users"). -/
def INITIAL_TOKEN_ALLOCATION : Nat := 1000

/-- `register` (auth.service.ts lines 23-53): rejects an already-registered
email with `BadRequestException('Email is already registered')`; otherwise
hashes the password with `bcrypt.hash(password, 10)`, creates the user with
`token_balance := INITIAL_TOKEN_ALLOCATION`, saves it and returns the saved
record. The commented-out wallet-funding call at lines 48-50 is absent. The
boolean flags take entity defaults (the entity file is not among the sources);
no claim depends on them. -/
def register (bhash : String → Nat → String) (now : Nat) (users : List User)
    (dto : RegisterUserDto) : Except NestException User × List User :=
  match findOne users dto.email with
  | some _existingUser =>
      (Except.error (NestException.badRequest "Email is already registered"), users)
  | none =>
      let hashedPassword := bhash dto.password 10
      let newUser : User :=
        { id := users.length
          email := dto.email
          password := hashedPassword
          full_name := dto.full_name
          wallet_address := dto.wallet_address
          token_balance := INITIAL_TOKEN_ALLOCATION
          is_active := true
          is_verified := false
          created_at := now
          updated_at := now
          last_login_at := none }
      (Except.ok newUser, users ++ [newUser])

/-- `validateUser` (auth.service.ts lines 56-68): looks the email up, returns
`null` when absent; compares the password with `bcrypt.compare`, returns `null`
when it does not match, the user otherwise. Returns the store untouched. -/
def validateUser (bcompare : String → String → Bool) (users : List User)
    (email password : String) : Option User × List User :=
  match findOne users email with
  | none => (none, users)
  | some user =>
      let isPasswordMatching := bcompare password user.password
      if !isPasswordMatching then (none, users)
      else (some user, users)

/-- The JWT payload prepared at auth.service.ts line 79:
`{ email: user.email, sub: user.id }`. -/
structure JwtPayload where
  email : String
  sub : Nat
deriving Repr, DecidableEq

/-- A signed JWT in decoded form: the claims plus the issued-at and expiry
timestamps the `jsonwebtoken` library stamps on it. -/
structure Token where
  email : String
  sub : Nat
  iat : Nat
  exp : Nat
deriving Repr, DecidableEq

/-- The `expiresIn` strings the service passes (`'1h'`, `'7d'`), converted to
seconds the way the `ms` library underlying `jsonwebtoken` does: a number
followed by a unit (`h` hours, `d` days, `m` minutes, otherwise seconds). -/
def expiresInSeconds (s : String) : Nat :=
  let digits := s.toList.takeWhile Char.isDigit
  let unit := s.toList.dropWhile Char.isDigit
  let n := digits.foldl (fun acc c => acc * 10 + (c.toNat - 48)) 0
  if unit = ['h'] then n * 3600
  else if unit = ['d'] then n * 86400
  else if unit = ['m'] then n * 60
  else n

/-- `jwtService.sign(payload, { expiresIn })`: a token over the payload's
claims expiring `expiresIn` after the signing time. -/
def jwtSign (now : Nat) (payload : JwtPayload) (expiresIn : String) : Token :=
  { email := payload.email
    sub := payload.sub
    iat := now
    exp := now + expiresInSeconds expiresIn }

/-- The public projection of a user built inline in the `login` response
(auth.service.ts lines 95-105): exactly the fields `id`, `full_name`, `email`,
`is_active`, `is_verified`, `token_balance`, `created_at`, `updated_at`,
`last_login_at` — no `password`, no `wallet_address`. -/
structure UserView where
  id : Nat
  full_name : String
  email : String
  is_active : Bool
  is_verified : Bool
  token_balance : Nat
  created_at : Nat
  updated_at : Nat
  last_login_at : Nat
deriving Repr, DecidableEq

/-- The projection itself: every field copied from the stored user except
`last_login_at`, which is `new Date()` — the response-time clock (line 104). -/
def loginUserView (user : User) (now : Nat) : UserView :=
  { id := user.id
    full_name := user.full_name
    email := user.email
    is_active := user.is_active
    is_verified := user.is_verified
    token_balance := user.token_balance
    created_at := user.created_at
    updated_at := user.updated_at
    last_login_at := now }

/-- The `data` object of the login response (lines 94-108). -/
structure LoginData where
  user : UserView
  access_token : Token
  refresh_token : Token
deriving Repr, DecidableEq

/-- The structured success payload of `login` (lines 91-109). -/
structure LoginResponse where
  status : String
  message : String
  data : LoginData
deriving Repr, DecidableEq

/-- `login` (auth.service.ts lines 71-110): validates the credentials, throws
`UnauthorizedException('Invalid credentials')` on no match; otherwise signs an
access token (`expiresIn: '1h'`) and a refresh token (`expiresIn: '7d'`) over
`{ email, sub: id }` and returns the success payload. No write to the store is
performed anywhere in the flow. -/
def login (bcompare : String → String → Bool) (now : Nat) (users : List User)
    (email password : String) : Except NestException LoginResponse × List User :=
  match (validateUser bcompare users email password).1 with
  | none => (Except.error (NestException.unauthorized "Invalid credentials"), users)
  | some user =>
      let payload : JwtPayload := { email := user.email, sub := user.id }
      let access_token := jwtSign now payload "1h"
      let refresh_token := jwtSign now payload "7d"
      (Except.ok
        { status := "success"
          message := "Login successful"
          data :=
            { user := loginUserView user now
              access_token := access_token
              refresh_token := refresh_token } }, users)

/-! ### Wallet funder (`allocateTokensToWallet`, auth.service.ts lines 113-195)

The web3 library and the remote JSON-RPC node are modelled as an environment
`EthEnv` of fallible operations; every operation that performs a network
round-trip is recorded in a `NetCall` trace, so "before any network call" and
"no retry" are provable. Purely local library work (provider construction,
`privateKeyToAccount`, `wallet.add`, ABI encoding, local signing) is not a
network call. -/

/-- The configuration values `configService.get` reads; each may be absent
(`undefined`). -/
structure Config where
  NETWORK : Option String
  INFURA_API_KEY : Option String
  PRIVATE_KEY : Option String
  CONTRACT_ADDRESS : Option String
deriving Repr, DecidableEq

/-- A web3 account derived from a private key; only its address is used. -/
structure Account where
  address : String
deriving Repr, DecidableEq

/-- Model of `web3.eth.accounts.privateKeyToAccount` (line 120): a local
computation that throws when handed `undefined` (the configuration lookup can
return it) and otherwise yields the account for the key. Address derivation is
abstracted to a tag of the key; content validation of present keys is left to
the explicit format check the service performs right after. -/
def privateKeyToAccount (privateKey : Option String) : Except String Account :=
  match privateKey with
  | none => Except.error "Private key must be of type string"
  | some k => Except.ok { address := "account:" ++ k }

/-- `web3.utils.toWei(n, unit)` on whole numbers: ether is 10^18 wei, gwei is
10^9 wei. -/
def toWei (n : Nat) (unit : String) : Nat :=
  if unit = "ether" then n * 10 ^ 18
  else if unit = "gwei" then n * 10 ^ 9
  else n

/-- The encoded `transfer(address,uint256)` contract call (lines 129-143):
`contract.methods.transfer(walletAddress, toWei(amount, 'ether')).encodeABI()`. -/
structure CallData where
  method : String
  recipient : String
  value : Nat
deriving Repr, DecidableEq

/-- `s.startsWith('0x')` of line 122, written over the character list so that
it evaluates inside the kernel. -/
def startsWith0x (s : String) : Bool := s.toList.take 2 == ['0', 'x']

/-- The argument of `web3.eth.estimateGas` (lines 149-153). -/
structure EstimateGasReq where
  fromAddr : String
  toAddr : Option String
  data : CallData
deriving Repr, DecidableEq

/-- The transaction object built at lines 157-181: either an EIP-1559 (type 2)
transaction with `maxPriorityFeePerGas`/`maxFeePerGas`, or a legacy (type 0)
transaction with a flat `gasPrice`. -/
inductive Tx where
  | eip1559 (fromAddr : String) (toAddr : Option String) (gas : Nat)
      (maxPriorityFeePerGas : Nat) (maxFeePerGas : Nat) (data : CallData)
  | legacy (fromAddr : String) (toAddr : Option String) (gas : Nat)
      (gasPrice : Nat) (data : CallData)
deriving Repr, DecidableEq

/-- The result of `signTransaction`: the signed payload wrapping the
transaction. -/
structure SignedTx where
  rawTransaction : Tx
deriving Repr, DecidableEq

/-- A transaction receipt as returned by the node on broadcast. -/
structure Receipt where
  transactionHash : String
deriving Repr, DecidableEq

/-- The network round-trips `allocateTokensToWallet` can perform, in source
order: gas estimation (line 149), legacy gas-price fetch (line 172), broadcast
(line 187). -/
inductive NetCall where
  | estimateGas
  | getGasPrice
  | sendSignedTransaction
deriving Repr, DecidableEq

/-- The remote node / web3 environment: each operation may fail with a
library or RPC error (a `String`). -/
structure EthEnv where
  estimateGas : EstimateGasReq → Except String Nat
  getGasPrice : Except String Nat
  signTransaction : Tx → String → Except String SignedTx
  sendSignedTransaction : SignedTx → Except String Receipt

/-- Lines 157-181: branch on the fee model. The EIP-1559 branch fixes
`maxPriorityFeePerGas = toWei('2','gwei')` and `maxFeePerGas =
toWei('100','gwei')`; the legacy branch first fetches the current network gas
price (`web3.eth.getGasPrice()`, a network call) and uses it as a flat
`gasPrice`. Both carry the same gas estimate. -/
def buildTransaction (env : EthEnv) (isEIP1559 : Bool) (fromAddr : String)
    (toAddr : Option String) (gasEstimate : Nat) (data : CallData) :
    Except String Tx × List NetCall :=
  if isEIP1559 then
    let maxPriorityFeePerGas := toWei 2 "gwei"
    let maxFeePerGas := toWei 100 "gwei"
    (Except.ok (Tx.eip1559 fromAddr toAddr gasEstimate maxPriorityFeePerGas
        maxFeePerGas data), [])
  else
    match env.getGasPrice with
    | Except.error e => (Except.error e, [NetCall.getGasPrice])
    | Except.ok gasPrice =>
        (Except.ok (Tx.legacy fromAddr toAddr gasEstimate gasPrice data),
          [NetCall.getGasPrice])

/-- The body of the `try` block of `allocateTokensToWallet` (lines 114-190):
resolve configuration, derive the account, check the private-key format
(line 122: `!privateKey || !privateKey.startsWith('0x') || privateKey.length
!== 66` throws `Error('Invalid private key format')`), encode the transfer
call, estimate gas, build the transaction with the hardcoded
`isEIP1559 = true` (line 146), sign it and broadcast it. The result is paired
with the trace of network calls attempted. -/
def allocateBody (env : EthEnv) (cfg : Config) (walletAddress : String)
    (amount : Nat) : Except String Receipt × List NetCall :=
  let _network := cfg.NETWORK.getD "sepolia"
  let _infuraApiKey := cfg.INFURA_API_KEY
  match privateKeyToAccount cfg.PRIVATE_KEY with
  | Except.error e => (Except.error e, [])
  | Except.ok account =>
      match cfg.PRIVATE_KEY with
      | none => (Except.error "Invalid private key format", [])
      | some privateKey =>
          if !(startsWith0x privateKey && privateKey.length == 66) then
            (Except.error "Invalid private key format", [])
          else
            let contractAddress := cfg.CONTRACT_ADDRESS
            let data : CallData :=
              { method := "transfer"
                recipient := walletAddress
                value := toWei amount "ether" }
            let isEIP1559 := true
            match env.estimateGas
                { fromAddr := account.address, toAddr := contractAddress, data := data } with
            | Except.error e => (Except.error e, [NetCall.estimateGas])
            | Except.ok gasEstimate =>
                match buildTransaction env isEIP1559 account.address contractAddress
                    gasEstimate data with
                | (Except.error e, calls) => (Except.error e, NetCall.estimateGas :: calls)
                | (Except.ok tx, calls) =>
                    match env.signTransaction tx privateKey with
                    | Except.error e => (Except.error e, NetCall.estimateGas :: calls)
                    | Except.ok signedTx =>
                        match env.sendSignedTransaction signedTx with
                        | Except.error e =>
                            (Except.error e,
                              NetCall.estimateGas :: calls ++ [NetCall.sendSignedTransaction])
                        | Except.ok receipt =>
                            (Except.ok receipt,
                              NetCall.estimateGas :: calls ++ [NetCall.sendSignedTransaction])

/-- `allocateTokensToWallet` (lines 113-195): the `try` body above wrapped in
the `catch` of lines 191-194, which logs the error and rethrows
`BadRequestException('Failed to allocate tokens to the wallet')`, whatever the
original error was. -/
def allocateTokensToWallet (env : EthEnv) (cfg : Config) (walletAddress : String)
    (amount : Nat) : Except NestException Receipt × List NetCall :=
  match allocateBody env cfg walletAddress amount with
  | (Except.ok receipt, calls) => (Except.ok receipt, calls)
  | (Except.error _e, calls) =>
      (Except.error (NestException.badRequest "Failed to allocate tokens to the wallet"),
        calls)

/-- The private-key conditions of claim C1 (exactly the negation of the check
at line 122): absent, or lacking the `0x` hex marker, or not 66 characters. -/
def invalidPrivateKeyCfg : Option String → Bool
  | none => true
  | some k => !(startsWith0x k) || !(k.length == 66)

/-! ### Concrete instances used to evaluate the model on closed inputs -/

/-- A deterministic stand-in for `bcrypt.hash`: emits the modular-crypt
prefix followed by the input; like real bcrypt output it is never equal to the
plaintext. -/
def demoHash (p : String) (_cost : Nat) : String := "$2b$10$" ++ p

/-- The matching stand-in for `bcrypt.compare`: rehash and compare. -/
def demoCompare (p h : String) : Bool := demoHash p 10 == h

/-- A stored user whose password field holds `demoHash "pw" 10`. -/
def demoUser : User :=
  { id := 0
    email := "a@x.com"
    password := "$2b$10$pw"
    full_name := "A"
    wallet_address := none
    token_balance := 1000
    is_active := true
    is_verified := false
    created_at := 0
    updated_at := 0
    last_login_at := none }

/-- A node environment whose RPC operations all succeed. -/
def demoEnv : EthEnv :=
  { estimateGas := fun _ => Except.ok 21000
    getGasPrice := Except.ok (toWei 1 "gwei")
    signTransaction := fun tx _ => Except.ok { rawTransaction := tx }
    sendSignedTransaction := fun _ => Except.ok { transactionHash := "0xh" } }

/-- A configuration whose private key lacks the `0x` marker. -/
def demoBadKeyCfg : Config :=
  { NETWORK := none
    INFURA_API_KEY := none
    PRIVATE_KEY := some "abc"
    CONTRACT_ADDRESS := some "0xc" }

/-- A configuration with no private key at all. -/
def demoNoKeyCfg : Config :=
  { NETWORK := some "sepolia"
    INFURA_API_KEY := some "k"
    PRIVATE_KEY := none
    CONTRACT_ADDRESS := some "0xc" }

/-! ### Theorems for the claims -/

/-- C2: registering an email that already belongs to a stored user throws the
validation error `'Email is already registered'` and leaves the store
unchanged. -/
theorem register_duplicate_email_rejected
    (bhash : String → Nat → String) (now : Nat) (users : List User)
    (dto : RegisterUserDto) (u : User)
    (hdup : findOne users dto.email = some u) :
    register bhash now users dto =
      (Except.error (NestException.badRequest "Email is already registered"), users) := by
  simp [register, hdup]

/-- Witness for C2 at a concrete store and request. -/
theorem register_duplicate_email_rejected_witness :
    findOne [demoUser] "a@x.com" = some demoUser ∧
    register demoHash 5 [demoUser]
        { email := "a@x.com", password := "pw", full_name := "A", wallet_address := none } =
      (Except.error (NestException.badRequest "Email is already registered"), [demoUser]) :=
  ⟨by decide,
    register_duplicate_email_rejected demoHash 5 [demoUser] _ demoUser (by decide)⟩

/-- C3: registering a fresh email stores a user whose password is
`bcrypt.hash(password, 10)`, whose token balance is the fixed initial
allocation 1000, returns exactly the stored record, and (as long as the hash
is not a fixed point, which is what one-wayness gives) the stored password
differs from the plaintext. -/
theorem register_fresh_email_creates_user
    (bhash : String → Nat → String) (now : Nat) (users : List User)
    (dto : RegisterUserDto)
    (hfresh : findOne users dto.email = none)
    (hhash : bhash dto.password 10 ≠ dto.password) :
    ∃ u : User,
      register bhash now users dto = (Except.ok u, users ++ [u]) ∧
      u.password = bhash dto.password 10 ∧
      u.token_balance = INITIAL_TOKEN_ALLOCATION ∧
      INITIAL_TOKEN_ALLOCATION = 1000 ∧
      u.email = dto.email ∧
      u.password ≠ dto.password := by
  refine ⟨{ id := users.length
            email := dto.email
            password := bhash dto.password 10
            full_name := dto.full_name
            wallet_address := dto.wallet_address
            token_balance := INITIAL_TOKEN_ALLOCATION
            is_active := true
            is_verified := false
            created_at := now
            updated_at := now
            last_login_at := none }, ?_, rfl, rfl, rfl, rfl, hhash⟩
  simp [register, hfresh]

/-- Witness for C3 at a concrete empty store and request. -/
theorem register_fresh_email_creates_user_witness :
    findOne [] "a@x.com" = none ∧
    demoHash "secret" 10 ≠ "secret" ∧
    ∃ u : User,
      register demoHash 7 []
          { email := "a@x.com", password := "secret", full_name := "A",
            wallet_address := none } =
        (Except.ok u, [] ++ [u]) ∧
      u.password = demoHash "secret" 10 ∧
      u.token_balance = INITIAL_TOKEN_ALLOCATION ∧
      INITIAL_TOKEN_ALLOCATION = 1000 ∧
      u.email = "a@x.com" ∧
      u.password ≠ "secret" :=
  ⟨rfl, by decide,
    register_fresh_email_creates_user demoHash 7 [] _ rfl (by decide)⟩

/-- C4: `validateUser` never writes to the store, returns `none` (not an
error) when the email is absent or the hash comparison fails, and returns the
matching stored user when the comparison succeeds. -/
theorem validateUser_matches_spec
    (bcompare : String → String → Bool) (users : List User)
    (email password : String) :
    (validateUser bcompare users email password).2 = users ∧
    (findOne users email = none →
      (validateUser bcompare users email password).1 = none) ∧
    (∀ u, findOne users email = some u →
      (bcompare password u.password = false →
          (validateUser bcompare users email password).1 = none) ∧
      (bcompare password u.password = true →
          (validateUser bcompare users email password).1 = some u)) := by
  cases h : findOne users email with
  | none => simp [validateUser, h]
  | some u =>
      cases hb : bcompare password u.password <;>
        simp [validateUser, h, hb]

/-- Witness for C4: correct credentials match, unknown email and wrong
password yield `none`, and the store comes back unchanged. -/
theorem validateUser_matches_spec_witness :
    (validateUser demoCompare [demoUser] "a@x.com" "pw").1 = some demoUser ∧
    (validateUser demoCompare [demoUser] "b@x.com" "pw").1 = none ∧
    (validateUser demoCompare [demoUser] "a@x.com" "wrong").1 = none ∧
    (validateUser demoCompare [demoUser] "a@x.com" "pw").2 = [demoUser] :=
  ⟨((validateUser_matches_spec demoCompare [demoUser] "a@x.com" "pw").2.2 demoUser
      (by decide)).2 (by decide),
    (validateUser_matches_spec demoCompare [demoUser] "b@x.com" "pw").2.1 (by decide),
    ((validateUser_matches_spec demoCompare [demoUser] "a@x.com" "wrong").2.2 demoUser
      (by decide)).1 (by decide),
    (validateUser_matches_spec demoCompare [demoUser] "a@x.com" "pw").1⟩

/-- C5: a login with valid credentials returns the success payload: the public
projection of the user, an access token and a refresh token signed over the
same claims (the user's email and id), with a 1-hour and a 7-day expiry
respectively, the refresh expiry strictly greater. -/
theorem login_success_payload
    (bcompare : String → String → Bool) (now : Nat) (users : List User)
    (email password : String) (u : User)
    (hvu : (validateUser bcompare users email password).1 = some u) :
    ∃ resp : LoginResponse,
      (login bcompare now users email password).1 = Except.ok resp ∧
      resp.status = "success" ∧
      resp.message = "Login successful" ∧
      resp.data.user = loginUserView u now ∧
      resp.data.access_token.email = u.email ∧
      resp.data.access_token.sub = u.id ∧
      resp.data.refresh_token.email = u.email ∧
      resp.data.refresh_token.sub = u.id ∧
      resp.data.access_token.exp = now + 3600 ∧
      resp.data.refresh_token.exp = now + 604800 ∧
      resp.data.access_token.exp < resp.data.refresh_token.exp := by
  have h1 : expiresInSeconds "1h" = 3600 := by decide
  have h7 : expiresInSeconds "7d" = 604800 := by decide
  refine ⟨{ status := "success"
            message := "Login successful"
            data :=
              { user := loginUserView u now
                access_token := jwtSign now { email := u.email, sub := u.id } "1h"
                refresh_token := jwtSign now { email := u.email, sub := u.id } "7d" } },
          ?_, rfl, rfl, rfl, rfl, rfl, rfl, rfl, ?_, ?_, ?_⟩
  · simp [login, hvu]
  · simp [jwtSign, h1]
  · simp [jwtSign, h7]
  · simp only [jwtSign, h1, h7]
    omega

/-- Witness for C5 at a concrete user and clock. -/
theorem login_success_payload_witness :
    (validateUser demoCompare [demoUser] "a@x.com" "pw").1 = some demoUser ∧
    ∃ resp : LoginResponse,
      (login demoCompare 10 [demoUser] "a@x.com" "pw").1 = Except.ok resp ∧
      resp.data.access_token.email = demoUser.email ∧
      resp.data.refresh_token.sub = demoUser.id ∧
      resp.data.access_token.exp = 10 + 3600 ∧
      resp.data.refresh_token.exp = 10 + 604800 ∧
      resp.data.access_token.exp < resp.data.refresh_token.exp := by
  refine ⟨by decide, ?_⟩
  obtain ⟨resp, hok, _, _, _, he, _, _, hrs, hae, hre, hlt⟩ :=
    login_success_payload demoCompare 10 [demoUser] "a@x.com" "pw" demoUser (by decide)
  exact ⟨resp, hok, he, hrs, hae, hre, hlt⟩

/-- C6: a login whose credentials do not validate — unknown email or wrong
password alike — fails with the authorization error
`UnauthorizedException('Invalid credentials')`, a constant that discloses
nothing about which field was wrong and is not a `BadRequestException`. -/
theorem login_invalid_credentials
    (bcompare : String → String → Bool) (now : Nat) (users : List User)
    (email password : String)
    (hvu : (validateUser bcompare users email password).1 = none) :
    login bcompare now users email password =
      (Except.error (NestException.unauthorized "Invalid credentials"), users) ∧
    ∀ m : String,
      NestException.unauthorized "Invalid credentials" ≠ NestException.badRequest m := by
  refine ⟨by simp [login, hvu], fun m h => by cases h⟩

/-- Witness for C6: the unknown-email case and the wrong-password case produce
the same generic authorization error. -/
theorem login_invalid_credentials_witness :
    (validateUser demoCompare [demoUser] "b@x.com" "pw").1 = none ∧
    (validateUser demoCompare [demoUser] "a@x.com" "nope").1 = none ∧
    login demoCompare 3 [demoUser] "b@x.com" "pw" =
      (Except.error (NestException.unauthorized "Invalid credentials"), [demoUser]) ∧
    login demoCompare 3 [demoUser] "a@x.com" "nope" =
      (Except.error (NestException.unauthorized "Invalid credentials"), [demoUser]) :=
  ⟨by decide, by decide,
    (login_invalid_credentials demoCompare 3 [demoUser] "b@x.com" "pw" (by decide)).1,
    (login_invalid_credentials demoCompare 3 [demoUser] "a@x.com" "nope" (by decide)).1⟩

/-- C9: `login` never writes back to the store — the store it returns is the
one it was given, so every stored record (its last-login timestamp included)
is unchanged — and the `last_login_at` in a success payload is the
response-time clock, not a value read from the store. -/
theorem login_no_writeback
    (bcompare : String → String → Bool) (now : Nat) (users : List User)
    (email password : String) :
    (login bcompare now users email password).2 = users ∧
    ∀ resp : LoginResponse,
      (login bcompare now users email password).1 = Except.ok resp →
      resp.data.user.last_login_at = now := by
  cases h : (validateUser bcompare users email password).1 with
  | none => simp [login, h]
  | some u =>
      refine ⟨by simp [login, h], fun resp hresp => ?_⟩
      simp [login, h] at hresp
      rw [← hresp]
      rfl

/-- Witness for C9: a concrete successful login leaves the store as it was and
stamps the response clock into the payload. -/
theorem login_no_writeback_witness :
    (login demoCompare 42 [demoUser] "a@x.com" "pw").2 = [demoUser] ∧
    ∃ resp : LoginResponse,
      (login demoCompare 42 [demoUser] "a@x.com" "pw").1 = Except.ok resp ∧
      resp.data.user.last_login_at = 42 := by
  have hl : (login demoCompare 42 [demoUser] "a@x.com" "pw").1 =
      Except.ok
        { status := "success"
          message := "Login successful"
          data :=
            { user := loginUserView demoUser 42
              access_token := jwtSign 42 { email := "a@x.com", sub := 0 } "1h"
              refresh_token := jwtSign 42 { email := "a@x.com", sub := 0 } "7d" } } := rfl
  exact ⟨(login_no_writeback demoCompare 42 [demoUser] "a@x.com" "pw").1,
    _, hl, (login_no_writeback demoCompare 42 [demoUser] "a@x.com" "pw").2 _ hl⟩

/-- C10: the user object of a success payload carries exactly the fields
`id`, `full_name`, `email`, `is_active`, `is_verified`, `token_balance`,
`created_at`, `updated_at`, `last_login_at` of the validated user (type
`UserView` has no others), and is invariant under the user's `password` and
`wallet_address`, which the projection omits. -/
theorem login_public_projection
    (bcompare : String → String → Bool) (now : Nat) (users : List User)
    (email password : String) (resp : LoginResponse)
    (hok : (login bcompare now users email password).1 = Except.ok resp) :
    ∃ u : User,
      (validateUser bcompare users email password).1 = some u ∧
      resp.data.user =
        { id := u.id
          full_name := u.full_name
          email := u.email
          is_active := u.is_active
          is_verified := u.is_verified
          token_balance := u.token_balance
          created_at := u.created_at
          updated_at := u.updated_at
          last_login_at := now } ∧
      ∀ (p : String) (w : Option String),
        loginUserView { u with password := p, wallet_address := w } now
          = resp.data.user := by
  cases h : (validateUser bcompare users email password).1 with
  | none => simp [login, h] at hok
  | some u =>
      refine ⟨u, rfl, ?_, ?_⟩
      · simp [login, h] at hok
        rw [← hok]
        rfl
      · intro p w
        simp [login, h] at hok
        rw [← hok]
        rfl

/-- Witness for C10 at a concrete successful login. -/
theorem login_public_projection_witness :
    ∃ resp : LoginResponse,
      (login demoCompare 8 [demoUser] "a@x.com" "pw").1 = Except.ok resp ∧
      ∃ u : User,
        (validateUser demoCompare [demoUser] "a@x.com" "pw").1 = some u ∧
        resp.data.user =
          { id := u.id
            full_name := u.full_name
            email := u.email
            is_active := u.is_active
            is_verified := u.is_verified
            token_balance := u.token_balance
            created_at := u.created_at
            updated_at := u.updated_at
            last_login_at := 8 } ∧
        ∀ (p : String) (w : Option String),
          loginUserView { u with password := p, wallet_address := w } 8
            = resp.data.user := by
  have hl : (login demoCompare 8 [demoUser] "a@x.com" "pw").1 =
      Except.ok
        { status := "success"
          message := "Login successful"
          data :=
            { user := loginUserView demoUser 8
              access_token := jwtSign 8 { email := "a@x.com", sub := 0 } "1h"
              refresh_token := jwtSign 8 { email := "a@x.com", sub := 0 } "7d" } } := rfl
  exact ⟨_, hl, login_public_projection demoCompare 8 [demoUser] "a@x.com" "pw" _ hl⟩

/-- Helper: the trace of network calls of one `allocateTokensToWallet` run is
the trace of its `try` body. -/
theorem allocate_trace_eq (env : EthEnv) (cfg : Config) (walletAddress : String)
    (amount : Nat) :
    (allocateTokensToWallet env cfg walletAddress amount).2 =
      (allocateBody env cfg walletAddress amount).2 := by
  cases hb : allocateBody env cfg walletAddress amount with
  | mk r calls => cases r <;> simp [allocateTokensToWallet, hb]

/-- Helper: the only traces of network calls the body can produce are the
empty trace, a sole (possibly failing) gas estimation, and a gas estimation
followed by one broadcast; in particular the legacy gas-price fetch never
happens and nothing is ever attempted twice. -/
theorem allocateBody_trace (env : EthEnv) (cfg : Config) (walletAddress : String)
    (amount : Nat) :
    (allocateBody env cfg walletAddress amount).2 = [] ∨
    (allocateBody env cfg walletAddress amount).2 = [NetCall.estimateGas] ∨
    (allocateBody env cfg walletAddress amount).2 =
      [NetCall.estimateGas, NetCall.sendSignedTransaction] := by
  unfold allocateBody
  cases hpk : cfg.PRIVATE_KEY with
  | none => simp [privateKeyToAccount]
  | some k =>
      simp only [privateKeyToAccount]
      cases hfmt : (startsWith0x k && k.length == 66) with
      | false => simp [hfmt]
      | true =>
          simp only [hfmt, Bool.not_true, Bool.false_eq_true, if_false]
          cases hest : env.estimateGas
              { fromAddr := ("account:" ++ k : String), toAddr := cfg.CONTRACT_ADDRESS,
                data := { method := "transfer", recipient := walletAddress,
                          value := toWei amount "ether" } } with
          | error e => simp [hest]
          | ok gasEstimate =>
              simp only [hest, buildTransaction, if_pos]
              cases hsig : env.signTransaction
                  (Tx.eip1559 ("account:" ++ k) cfg.CONTRACT_ADDRESS gasEstimate
                    (toWei 2 "gwei") (toWei 100 "gwei")
                    { method := "transfer", recipient := walletAddress,
                      value := toWei amount "ether" }) k with
              | error e => simp [hsig]
              | ok signedTx =>
                  cases hsend : env.sendSignedTransaction signedTx with
                  | error e => simp [hsig, hsend]
                  | ok receipt => simp [hsig, hsend]

/-- C1 (amended): with a configured private key that is absent, lacks the
`0x` marker or is not 66 characters long, `allocateTokensToWallet` fails
before any network call is attempted (the trace is empty), and the failure
reaches the caller as a `BadRequestException` — but carrying the generic
`'Failed to allocate tokens to the wallet'` message of the catch-all handler,
not the descriptive `'Invalid private key format'` message thrown at the
validation site. -/
theorem allocate_invalid_key_fails_before_network
    (env : EthEnv) (cfg : Config) (walletAddress : String) (amount : Nat)
    (hbad : invalidPrivateKeyCfg cfg.PRIVATE_KEY = true) :
    allocateTokensToWallet env cfg walletAddress amount =
      (Except.error (NestException.badRequest "Failed to allocate tokens to the wallet"),
        []) := by
  cases hpk : cfg.PRIVATE_KEY with
  | none => simp [allocateTokensToWallet, allocateBody, privateKeyToAccount, hpk]
  | some k =>
      rw [hpk] at hbad
      have hfmt : (startsWith0x k && k.length == 66) = false := by
        cases ha : startsWith0x k <;> cases hb : k.length == 66 <;>
          simp_all [invalidPrivateKeyCfg]
      simp [allocateTokensToWallet, allocateBody, privateKeyToAccount, hpk, hfmt]

/-- Witness for the amended C1: a key without the hex marker never reaches the
network and yields the generic error. -/
theorem allocate_invalid_key_fails_before_network_witness :
    invalidPrivateKeyCfg demoBadKeyCfg.PRIVATE_KEY = true ∧
    allocateTokensToWallet demoEnv demoBadKeyCfg "0xdest" 1000 =
      (Except.error (NestException.badRequest "Failed to allocate tokens to the wallet"),
        []) :=
  ⟨by decide,
    allocate_invalid_key_fails_before_network demoEnv demoBadKeyCfg "0xdest" 1000
      (by decide)⟩

/-- Counterexample to C1 as stated: with the malformed key `"abc"` the caller
does not receive the descriptive validation message — the surfaced error is
the generic `'Failed to allocate tokens to the wallet'`, which differs from
`'Invalid private key format'`. -/
theorem allocate_invalid_key_message_not_descriptive :
    (allocateTokensToWallet demoEnv demoBadKeyCfg "0xdest" 1000).1 =
      Except.error (NestException.badRequest "Failed to allocate tokens to the wallet") ∧
    (allocateTokensToWallet demoEnv demoBadKeyCfg "0xdest" 1000).1 ≠
      Except.error (NestException.badRequest "Invalid private key format") := by
  constructor
  · rfl
  · intro h
    have : NestException.badRequest "Failed to allocate tokens to the wallet" =
        NestException.badRequest "Invalid private key format" := by
      have h0 : (allocateTokensToWallet demoEnv demoBadKeyCfg "0xdest" 1000).1 =
          Except.error
            (NestException.badRequest "Failed to allocate tokens to the wallet") := rfl
      rw [h0] at h
      exact Except.error.inj h
    simp at this

/-- C7: the fee-model flag is hardcoded to `true`, so the transaction built is
always the EIP-1559 one — carrying the gas estimate, a priority fee of
`toWei('2','gwei') = 2·10^9` wei and a max fee of `toWei('100','gwei') =
100·10^9` wei — and the legacy branch's gas-price fetch is dead: no run of
`allocateTokensToWallet`, whatever the environment, configuration or inputs,
ever performs the `getGasPrice` network call. -/
theorem allocate_always_eip1559_legacy_dead :
    (∀ (env : EthEnv) (fromAddr : String) (toAddr : Option String)
        (gasEstimate : Nat) (data : CallData),
      buildTransaction env true fromAddr toAddr gasEstimate data =
        (Except.ok (Tx.eip1559 fromAddr toAddr gasEstimate (toWei 2 "gwei")
            (toWei 100 "gwei") data), [])) ∧
    toWei 2 "gwei" = 2 * 10 ^ 9 ∧
    toWei 100 "gwei" = 100 * 10 ^ 9 ∧
    (∀ (env : EthEnv) (cfg : Config) (walletAddress : String) (amount : Nat),
      NetCall.getGasPrice ∉ (allocateTokensToWallet env cfg walletAddress amount).2) := by
  refine ⟨fun env f t g d => rfl, rfl, rfl, fun env cfg w a => ?_⟩
  rw [allocate_trace_eq]
  rcases allocateBody_trace env cfg w a with h | h | h <;> rw [h] <;> decide

/-- C8: whatever happens inside `allocateTokensToWallet` — key validation
failure, gas-estimation failure, signing failure, broadcast failure — the
caller sees either a receipt or the one generic
`BadRequestException('Failed to allocate tokens to the wallet')`, never the
underlying cause; and no network call is retried (the trace holds no
duplicate). -/
theorem allocate_failures_collapsed (env : EthEnv) (cfg : Config)
    (walletAddress : String) (amount : Nat) :
    ((∃ receipt, (allocateTokensToWallet env cfg walletAddress amount).1 =
        Except.ok receipt) ∨
      (allocateTokensToWallet env cfg walletAddress amount).1 =
        Except.error (NestException.badRequest "Failed to allocate tokens to the wallet")) ∧
    (allocateTokensToWallet env cfg walletAddress amount).2.Nodup := by
  constructor
  · cases hb : allocateBody env cfg walletAddress amount with
    | mk r calls =>
        cases r with
        | ok receipt => exact Or.inl ⟨receipt, by simp [allocateTokensToWallet, hb]⟩
        | error e => exact Or.inr (by simp [allocateTokensToWallet, hb])
  · rw [allocate_trace_eq]
    rcases allocateBody_trace env cfg walletAddress amount with h | h | h <;>
      rw [h] <;> decide

end SustainAuth
